import Mathlib

/-!
Verification of the OpenAPI→SQL generator (`libs/pygenerate-sql-from-openapi`).

The Python sources are embedded shallowly:
* dictionaries become association lists with `List.lookup`;
* a Python function that can raise becomes a Lean function into `Option`/`Except`
  (`none`/`.error` models the exception);
* the filesystem becomes an explicit `FS` state (a set of created directories and
  a map from paths to file contents) threaded through the functions that touch it;
* `print` output becomes an explicit list of log lines.
-/

namespace OpenApiSql

/-- A property descriptor: a JSON object with string-valued fields, modelled as an
association list (Python `dict`; `List.lookup` models `dict.get`). -/
def PropDesc := List (String × String)

/-- `TYPE_MAPPING` from `core/type_mapper.py`: dialect → (type key → SQL type string),
reproduced verbatim. -/
def TYPE_MAPPING : List (String × List (String × String)) :=
  [("postgresql",
     [("integer", "INTEGER"),
      ("integer_int64", "BIGINT"),
      ("string", "VARCHAR(255)"),
      ("string_date-time", "TIMESTAMPTZ"),
      ("string_date", "DATE"),
      ("string_uuid", "VARCHAR(36)"),
      ("boolean", "BOOLEAN"),
      ("number", "DECIMAL(10,2)"),
      ("number_float", "REAL"),
      ("number_double", "DOUBLE PRECISION"),
      ("uuid_pk", "UUID DEFAULT gen_random_uuid() PRIMARY KEY")]),
   ("mysql",
     [("integer", "INT"),
      ("integer_int64", "BIGINT"),
      ("string", "VARCHAR(255)"),
      ("string_date-time", "DATETIME"),
      ("string_date", "DATE"),
      ("string_uuid", "VARCHAR(36)"),
      ("boolean", "BOOLEAN"),
      ("number", "DECIMAL(10,2)"),
      ("number_float", "FLOAT"),
      ("number_double", "DOUBLE"),
      ("uuid_pk", "CHAR(36) DEFAULT (UUID()) PRIMARY KEY")]),
   ("sqlserver",
     [("integer", "INT"),
      ("integer_int64", "BIGINT"),
      ("string", "NVARCHAR(255)"),
      ("string_date-time", "DATETIME2"),
      ("string_date", "DATE"),
      ("string_uuid", "UNIQUEIDENTIFIER"),
      ("boolean", "BIT"),
      ("number", "DECIMAL(10,2)"),
      ("number_float", "REAL"),
      ("number_double", "FLOAT"),
      ("uuid_pk", "UNIQUEIDENTIFIER DEFAULT NEWID() PRIMARY KEY")]),
   ("oracle",
     [("integer", "NUMBER(10)"),
      ("integer_int64", "NUMBER(19)"),
      ("string", "VARCHAR2(255)"),
      ("string_date-time", "TIMESTAMP"),
      ("string_date", "DATE"),
      ("string_uuid", "VARCHAR2(36)"),
      ("boolean", "NUMBER(1)"),
      ("number", "NUMBER(10,2)"),
      ("number_float", "BINARY_FLOAT"),
      ("number_double", "BINARY_DOUBLE"),
      ("uuid_pk", "RAW(16) DEFAULT SYS_GUID() PRIMARY KEY")])]

/-- The lookup key computed by `get_sql_type`:
`type_key = f"{json_type}_{json_format}" if json_format else json_type`.
A missing `type` renders as Python's `str(None) = "None"` inside the f-string
(and `None` is never a key of a dialect table, so the behaviour matches). -/
def lookupKey (prop : PropDesc) : String :=
  let json_format := (List.lookup "format" prop).getD ""
  let json_type := (List.lookup "type" prop).getD "None"
  if json_format ≠ "" then json_type ++ "_" ++ json_format else json_type

/-- `get_sql_type(prop, dialect)` from `core/type_mapper.py`.
`TYPE_MAPPING[dialect]` raises `KeyError` for an unknown dialect, modelled by
the `none` result; on the early `uuid_pk` branch, `dialect_map['uuid_pk']` is
likewise a raising subscript, modelled by the `Option` of its lookup. -/
def get_sql_type (prop : PropDesc) (dialect : String) : Option String :=
  match List.lookup dialect TYPE_MAPPING with
  | none => none
  | some dialect_map =>
    if List.lookup "type" prop = some "uuid_pk" then
      List.lookup "uuid_pk" dialect_map
    else
      match List.lookup (lookupKey prop) dialect_map with
      | some v => some v
      | none =>
        match List.lookup "type" prop with
        | some json_type =>
          match List.lookup json_type dialect_map with
          | some v => some v
          | none => some "VARCHAR(255)"
        | none => some "VARCHAR(255)"

/-- The `supported_dialects` list set in `OpenApiSqlGenerator.__init__`. -/
def supported_dialects : List String :=
  ["postgresql", "mysql", "sqlserver", "oracle"]

/-- The filesystem state: the set of directories created so far and a map from
file paths to file contents. -/
@[ext]
structure FS where
  dirs : List String
  files : String → Option String

/-- The empty filesystem. -/
def FS.empty : FS := ⟨[], fun _ => none⟩

/-- `Path.mkdir(parents=True, exist_ok=True)`: records the directory (the full
path entry stands for the chain of ancestors); `exist_ok` makes it a no-op when
the directory already exists. -/
def FS.mkdirP (fs : FS) (p : String) : FS :=
  if p ∈ fs.dirs then fs else { fs with dirs := fs.dirs ++ [p] }

/-- `open(file_path, 'w').write(content)`: creates or unconditionally overwrites
the file at `p` with content `c`. -/
def FS.writeFile (fs : FS) (p c : String) : FS :=
  { fs with files := fun q => if q = p then some c else fs.files q }

/-- `FileWriter` from `utils/file_writer.py`: `output_dir` already holds the
joined `Path(output_dir) / dialect` computed by `__init__`. -/
structure FileWriter where
  output_dir : String
  dialect : String

/-- `FileWriter.__init__(output_dir, dialect)`: joins the dialect onto the output
directory and immediately `mkdir`s it (side effect on the filesystem). -/
def FileWriter.init (output_dir dialect : String) (fs : FS) : FS × FileWriter :=
  let dir := output_dir ++ "/" ++ dialect
  (fs.mkdirP dir, ⟨dir, dialect⟩)

/-- The header f-string of `FileWriter.write_sql_file`.  Python's `str.upper()`
on the ASCII dialect names agrees with `String.toUpper`. -/
def sqlHeader (service_name dialect : String) : String :=
  "-- SQL DDL for " ++ service_name ++ "\n-- Database: " ++ dialect.toUpper
    ++ "\n-- Generated automatically from OpenAPI specification\n-- Do not edit manually\n\n"

/-- `FileWriter.write_sql_file(service_name, sql_statements)`: writes
`<output_dir>/<service_name>.sql` (header plus the statements joined by
`'\n\n'`) and returns the file path. -/
def FileWriter.write_sql_file (fw : FileWriter) (service_name : String)
    (sql_statements : List String) (fs : FS) : FS × String :=
  let filename := service_name ++ ".sql"
  let file_path := fw.output_dir ++ "/" ++ filename
  let content := sqlHeader service_name fw.dialect
    ++ String.intercalate "\n\n" sql_statements
  (fs.writeFile file_path content, file_path)

/-- Modelled from the spec: `OpenApiProcessor.__init__`
(`core/openapi_processor.py`, not under `src/`) only records the build
directory; per the spec, discovery and parsing happen later in
`find_openapi_files` / `load_openapi_spec`. -/
structure OpenApiProcessor where
  build_dir : String

/-- Python's `str(['a', 'b'])` representation of a list of strings, used by the
`ValueError` message in `OpenApiSqlGenerator.__init__`. -/
def pyListRepr (xs : List String) : String :=
  let q := String.singleton (Char.ofNat 39)
  "[" ++ String.intercalate ", " (xs.map fun s => q ++ s ++ q) ++ "]"

/-- `OpenApiSqlGenerator` from `main.py`. -/
structure OpenApiSqlGenerator where
  processor : OpenApiProcessor
  file_writer : FileWriter
  dialect : String

/-- `OpenApiSqlGenerator.__init__(build_dir, output_dir, dialect)`: constructs the
processor, then the `FileWriter` (whose `__init__` already creates the dialect
output directory), and only afterwards validates the dialect, raising
`ValueError` (`.error`) for an unsupported one. -/
def OpenApiSqlGenerator.init (build_dir output_dir dialect : String) (fs : FS) :
    FS × Except String OpenApiSqlGenerator :=
  let processor : OpenApiProcessor := ⟨build_dir⟩
  let (fs1, fw) := FileWriter.init output_dir dialect fs
  if dialect ∉ supported_dialects then
    (fs1, .error ("Unsupported dialect: " ++ dialect ++ ". Supported: "
      ++ pyListRepr supported_dialects))
  else
    (fs1, .ok ⟨processor, fw, dialect⟩)

/-- The abstracted result of the body of the per-service `try` block in
`generate_all` (the calls into `core/openapi_processor.py` and
`generators/sql_generator.py`, whose code is not under `src/`):
either some exception was raised below the per-service boundary (`failure`),
or `extract_response_schemas` returned an empty mapping (`noSchemas`),
or the loop over schemas assembled the listed `sql_statements`. -/
inductive ServiceOutcome where
  | failure (err : String)
  | noSchemas
  | statements (stmts : List String)

/-- One entry of `find_openapi_files()`: the discovered service together with the
abstracted outcome of processing it. -/
structure ServiceFile where
  service_name : String
  outcome : ServiceOutcome

/-- The body of the `for file_info in openapi_files:` loop of
`OpenApiSqlGenerator.generate_all`, for one service: returns the filesystem
after the iteration plus the lines printed during it.  The intermediate
`Found n schemas: [...]` line (whose contents depend on code not under `src/`)
is elided from the log. -/
def processService (fw : FileWriter) (s : ServiceFile) (fs : FS) :
    FS × List String :=
  let processing := "Processing " ++ s.service_name ++ "..."
  match s.outcome with
  | .failure e =>
    (fs, [processing, "  Error processing " ++ s.service_name ++ ": " ++ e])
  | .noSchemas =>
    (fs, [processing, "  No Response/Status schemas found in " ++ s.service_name])
  | .statements stmts =>
    if stmts.isEmpty then
      (fs, [processing, "  No valid schemas found for " ++ s.service_name])
    else
      let (fs2, path) := fw.write_sql_file s.service_name stmts fs
      (fs2, [processing, "  Generated: " ++ path])

/-- The loop of `generate_all` over the discovered services, threading the
filesystem and accumulating the printed lines. -/
def processAll (fw : FileWriter) (services : List ServiceFile) (fs : FS) :
    FS × List String :=
  match services with
  | [] => (fs, [])
  | s :: rest =>
    let step := processService fw s fs
    let next := processAll fw rest step.1
    (next.1, step.2 ++ next.2)

/-- `OpenApiSqlGenerator.generate_all`: early return when no OpenAPI files were
found, otherwise process every service (each inside its own `try`/`except`) and
print the completion line. -/
def OpenApiSqlGenerator.generate_all (g : OpenApiSqlGenerator)
    (services : List ServiceFile) (fs : FS) : FS × List String :=
  if services.isEmpty then
    (fs, ["No OpenAPI files found in build/smithy directory"])
  else
    let found := "Found " ++ toString services.length ++ " OpenAPI files"
    let run := processAll g.file_writer services fs
    (run.1, found :: run.2 ++ ["SQL generation completed!"])

/-- The state of the configuration file `libs/config/params.json` for a CLI run:
missing, present but unparseable (`json.load` raises), or parsed into a list of
project entries.  A project entry is collapsed to its `database.sgbd` value
(`none` when either the `database` object or the `sgbd` key is absent, both of
which default identically). -/
inductive ConfigState where
  | missing
  | malformed
  | parsed (projects : List (Option String))

/-- `get_database_dialect(projects_config)` from `libs/pygenerate-sql-from-openapi.py`:
the first project's `database.sgbd`, defaulting to `postgresql`. -/
def get_database_dialect (projects_config : List (Option String)) : String :=
  match projects_config with
  | [] => "postgresql"
  | first_project :: _ => first_project.getD "postgresql"

/-- `main()` of `libs/pygenerate-sql-from-openapi.py`: returns the final
filesystem, the printed lines, and the process exit status.  A missing
configuration file prints an error and falls through a plain `return`
(exit status 0); any exception inside the `try` (an unparseable configuration,
or the `ValueError` from an unsupported dialect) prints an error and calls
`sys.exit(1)`.  `services` abstracts what `find_openapi_files` discovers under
`<root>/build/smithy`. -/
def cliMain (root : String) (cfg : ConfigState) (services : List ServiceFile)
    (fs : FS) : FS × List String × Nat :=
  match cfg with
  | .missing =>
    (fs, ["❌ Configuration file not found: " ++ root
      ++ "/libs/config/params.json"], 0)
  | .malformed =>
    (fs, ["❌ Error generating SQL: invalid JSON"], 1)
  | .parsed projects =>
    let dialect := get_database_dialect projects
    let banner := "🗄️  Generating SQL DDL scripts for " ++ dialect.toUpper ++ "..."
    let ctor := OpenApiSqlGenerator.init (root ++ "/build/smithy")
      (root ++ "/sql") dialect fs
    match ctor.2 with
    | .error e => (ctor.1, [banner, "❌ Error generating SQL: " ++ e], 1)
    | .ok g =>
      let run := g.generate_all services ctor.1
      (run.1, banner :: run.2
        ++ ["✅ SQL generation complete for " ++ dialect.toUpper], 0)

/-- The table `TYPE_MAPPING[dialect]` that `get_sql_type` works with (empty for
a dialect outside the table). -/
def dialect_map (dialect : String) : List (String × String) :=
  (List.lookup dialect TYPE_MAPPING).getD []

/-! ### Helper lemmas -/

theorem mem_supported_iff (d : String) :
    d ∈ supported_dialects ↔
      d = "postgresql" ∨ d = "mysql" ∨ d = "sqlserver" ∨ d = "oracle" := by
  simp [supported_dialects]

theorem get_sql_type_default_core (prop : PropDesc) (d : String)
    (m : List (String × String))
    (hd : List.lookup d TYPE_MAPPING = some m)
    (hpk : List.lookup "uuid_pk" m ≠ none)
    (hk : List.lookup (lookupKey prop) m = none)
    (ht : ∀ t, List.lookup "type" prop = some t → List.lookup t m = none) :
    get_sql_type prop d = some "VARCHAR(255)" := by
  have hnotpk : ¬ List.lookup "type" prop = some "uuid_pk" := fun h => hpk (ht _ h)
  simp only [get_sql_type, hd]
  rw [if_neg hnotpk, hk]
  cases h : List.lookup "type" prop with
  | none => rfl
  | some t => simp [ht t h]

theorem get_sql_type_isSome_core (prop : PropDesc) (d : String)
    (m : List (String × String))
    (hd : List.lookup d TYPE_MAPPING = some m)
    (hpk : (List.lookup "uuid_pk" m).isSome) :
    (get_sql_type prop d).isSome := by
  simp only [get_sql_type, hd]
  split
  · exact hpk
  · split
    · simp
    · split
      · split <;> simp
      · simp

theorem get_sql_type_key_found (prop : PropDesc) (d : String)
    (m : List (String × String)) (v : String)
    (hd : List.lookup d TYPE_MAPPING = some m)
    (hnotpk : ¬ List.lookup "type" prop = some "uuid_pk")
    (hkey : List.lookup (lookupKey prop) m = some v) :
    get_sql_type prop d = some v := by
  simp only [get_sql_type, hd]
  rw [if_neg hnotpk, hkey]

theorem get_sql_type_pk_branch (prop : PropDesc) (d : String)
    (m : List (String × String))
    (hd : List.lookup d TYPE_MAPPING = some m)
    (hpk : List.lookup "type" prop = some "uuid_pk") :
    get_sql_type prop d = List.lookup "uuid_pk" m := by
  simp only [get_sql_type, hd]
  rw [if_pos hpk]

theorem get_sql_type_congr (p q : PropDesc) (d : String)
    (h1 : List.lookup "type" p = List.lookup "type" q)
    (h2 : List.lookup "format" p = List.lookup "format" q) :
    get_sql_type p d = get_sql_type q d := by
  simp only [get_sql_type, lookupKey, h1, h2]

/-! ### Claims -/

/-- C9: for the oracle dialect the type mapper resolves the synthetic UUID
primary-key marker (type `uuid_pk`) to exactly
`RAW(16) DEFAULT SYS_GUID() PRIMARY KEY`, and a property of type `string` with
format `date-time` to exactly `TIMESTAMP`. -/
theorem C9_oracle_types :
    get_sql_type [("type", "uuid_pk")] "oracle"
        = some "RAW(16) DEFAULT SYS_GUID() PRIMARY KEY"
    ∧ get_sql_type [("type", "string"), ("format", "date-time")] "oracle"
        = some "TIMESTAMP" := by
  decide

/-- C1 counterexample: for the oracle dialect and a descriptor of type `blob`
(whose computed key and bare type are both absent from oracle's table),
`get_sql_type` returns the literal `VARCHAR(255)` — not oracle's default string
type `VARCHAR2(255)` (the string oracle maps plain `string` to), so the claim
fails as stated. -/
theorem C1_counterexample :
    List.lookup (lookupKey [("type", "blob")]) (dialect_map "oracle") = none
    ∧ List.lookup "blob" (dialect_map "oracle") = none
    ∧ List.lookup "string" (dialect_map "oracle") = some "VARCHAR2(255)"
    ∧ get_sql_type [("type", "blob")] "oracle" = some "VARCHAR(255)"
    ∧ ("VARCHAR(255)" : String) ≠ "VARCHAR2(255)" := by
  decide

/-- C1 (amended): for every supported dialect and every descriptor whose
computed lookup key and bare type are both absent from that dialect's table,
`get_sql_type` returns the hard-coded literal `VARCHAR(255)` — which coincides
with the dialect's own default string type only for postgresql and mysql. -/
theorem C1_amended_default_literal (d : String) (prop : PropDesc)
    (hd : d ∈ supported_dialects)
    (hk : List.lookup (lookupKey prop) (dialect_map d) = none)
    (ht : ∀ t, List.lookup "type" prop = some t →
      List.lookup t (dialect_map d) = none) :
    get_sql_type prop d = some "VARCHAR(255)" := by
  rcases (mem_supported_iff d).1 hd with rfl | rfl | rfl | rfl <;>
    exact get_sql_type_default_core _ _ _ rfl (by decide) hk ht

/-- C1 witness: the amended default-type theorem applied to the oracle dialect
and a `blob` descriptor. -/
theorem C1_witness :
    get_sql_type [("type", "blob")] "oracle" = some "VARCHAR(255)" :=
  C1_amended_default_literal "oracle" [("type", "blob")] (by decide) (by decide)
    (fun t h => by injection h with h2; rw [← h2]; decide)

/-- C4 counterexample: `get_sql_type` is not total over every dialect value —
for the unknown dialect `db2` the subscript `TYPE_MAPPING[dialect]` raises
`KeyError` (modelled by `none`), so no string is returned. -/
theorem C4_counterexample :
    ¬ (get_sql_type [] "db2").isSome := by
  decide

/-- C4 (amended): restricted to the four supported dialects `get_sql_type` is
total: every descriptor (missing type, unknown type, unknown format included)
produces some string. -/
theorem C4_amended_total_on_supported (prop : PropDesc) (d : String)
    (hd : d ∈ supported_dialects) :
    (get_sql_type prop d).isSome := by
  rcases (mem_supported_iff d).1 hd with rfl | rfl | rfl | rfl <;>
    exact get_sql_type_isSome_core _ _ _ rfl (by decide)

/-- C4 witness: totality at the empty descriptor for the oracle dialect. -/
theorem C4_witness : (get_sql_type [] "oracle").isSome :=
  C4_amended_total_on_supported [] "oracle" (by decide)

/-- C10: a descriptor of type `string` and format `uuid` resolves to each
dialect's `string_uuid` entry and never to that dialect's generated-primary-key
fragment; the primary-key branch fires exactly on descriptors whose `type`
field is the literal `uuid_pk`; and the mapper reads only the `type` and
`format` fields, so any other marking (such as an `isPrimaryKey` flag) cannot
change its result. -/
theorem C10_string_uuid_not_pk :
    (∀ p : PropDesc, List.lookup "type" p = some "string" →
        List.lookup "format" p = some "uuid" →
        get_sql_type p "postgresql" = some "VARCHAR(36)"
        ∧ get_sql_type p "mysql" = some "VARCHAR(36)"
        ∧ get_sql_type p "sqlserver" = some "UNIQUEIDENTIFIER"
        ∧ get_sql_type p "oracle" = some "VARCHAR2(36)")
    ∧ (∀ d, d ∈ supported_dialects →
        some "VARCHAR(36)" ≠ List.lookup "uuid_pk" (dialect_map d)
        ∧ some "UNIQUEIDENTIFIER" ≠ List.lookup "uuid_pk" (dialect_map d)
        ∧ some "VARCHAR2(36)" ≠ List.lookup "uuid_pk" (dialect_map d))
    ∧ (∀ (p : PropDesc) (d : String) (m : List (String × String)),
        List.lookup d TYPE_MAPPING = some m →
        List.lookup "type" p = some "uuid_pk" →
        get_sql_type p d = List.lookup "uuid_pk" m)
    ∧ (∀ (p q : PropDesc) (d : String),
        List.lookup "type" p = List.lookup "type" q →
        List.lookup "format" p = List.lookup "format" q →
        get_sql_type p d = get_sql_type q d) := by
  refine ⟨?_, ?_, ?_, ?_⟩
  · intro p ht hf
    have hnotpk : ¬ List.lookup "type" p = some "uuid_pk" := by simp [ht]
    have hkey : lookupKey p = "string_uuid" := by simp [lookupKey, ht, hf]
    exact ⟨get_sql_type_key_found p _ _ _ rfl hnotpk (by rw [hkey]; decide),
      get_sql_type_key_found p _ _ _ rfl hnotpk (by rw [hkey]; decide),
      get_sql_type_key_found p _ _ _ rfl hnotpk (by rw [hkey]; decide),
      get_sql_type_key_found p _ _ _ rfl hnotpk (by rw [hkey]; decide)⟩
  · intro d hd
    rcases (mem_supported_iff d).1 hd with rfl | rfl | rfl | rfl <;> exact (by decide)
  · exact fun p d m hd hpk => get_sql_type_pk_branch p d m hd hpk
  · exact fun p q d h1 h2 => get_sql_type_congr p q d h1 h2

/-- C10 witness: the theorem applied to a concrete uuid-string descriptor that
also carries an `isPrimaryKey` marking. -/
theorem C10_witness :
    get_sql_type [("type", "string"), ("format", "uuid"), ("isPrimaryKey", "true")]
      "oracle" = some "VARCHAR2(36)" :=
  (C10_string_uuid_not_pk.1
    [("type", "string"), ("format", "uuid"), ("isPrimaryKey", "true")]
    (by decide) (by decide)).2.2.2

/-- C5: constructing `OpenApiSqlGenerator` with a dialect outside the four
supported values fails with the `ValueError` whose message names the value and
lists the supported dialects, and construction with a supported dialect does
not produce this error. -/
theorem C5_dialect_validation (bd od d : String) (fs : FS) :
    (d ∉ supported_dialects →
      (OpenApiSqlGenerator.init bd od d fs).2
        = .error ("Unsupported dialect: " ++ d ++ ". Supported: "
            ++ pyListRepr supported_dialects))
    ∧ (d ∈ supported_dialects →
      ∃ g, (OpenApiSqlGenerator.init bd od d fs).2 = .ok g) := by
  constructor
  · intro hd
    simp [OpenApiSqlGenerator.init, hd]
  · intro hd
    refine ⟨⟨⟨bd⟩, ⟨od ++ "/" ++ d, d⟩, d⟩, ?_⟩
    simp [OpenApiSqlGenerator.init, FileWriter.init, hd]

/-- C5 witness: construction with `db2` fails with the documented message;
construction with `oracle` succeeds. -/
theorem C5_witness :
    (OpenApiSqlGenerator.init "build/smithy" "sql" "db2" FS.empty).2
      = .error ("Unsupported dialect: db2. Supported: "
          ++ pyListRepr supported_dialects)
    ∧ ∃ g, (OpenApiSqlGenerator.init "build/smithy" "sql" "oracle" FS.empty).2
      = .ok g :=
  ⟨by
      have h := (C5_dialect_validation "build/smithy" "sql" "db2" FS.empty).1
        (by decide)
      rw [h]
      rfl,
    (C5_dialect_validation "build/smithy" "sql" "oracle" FS.empty).2 (by decide)⟩

/-- C2 counterexample: constructing the generator with the unsupported dialect
`db2` on an empty filesystem does NOT leave the filesystem unchanged — the
`FileWriter` constructed before the dialect check creates the output directory
`sql/db2`, even though construction then fails. -/
theorem C2_counterexample :
    ((OpenApiSqlGenerator.init "build/smithy" "sql" "db2" FS.empty).1).dirs
        = ["sql/db2"]
    ∧ FS.empty.dirs = []
    ∧ ∃ e, (OpenApiSqlGenerator.init "build/smithy" "sql" "db2" FS.empty).2
        = .error e := by
  exact ⟨rfl, rfl, ⟨_, rfl⟩⟩

/-- C2 (amended): a fatal pre-flight error still aborts the run before any FILE
is created or modified — a missing configuration file leaves the filesystem
fully unchanged, and an unsupported dialect makes construction fail with the
`ValueError` before any file is written — but the unsupported-dialect case
first creates the dialect output directory `<output_dir>/<dialect>`. -/
theorem C2_amended_preflight (bd od d root : String) (fs : FS)
    (services : List ServiceFile) (hd : d ∉ supported_dialects) :
    ((OpenApiSqlGenerator.init bd od d fs).2
        = .error ("Unsupported dialect: " ++ d ++ ". Supported: "
            ++ pyListRepr supported_dialects))
    ∧ ((OpenApiSqlGenerator.init bd od d fs).1).files = fs.files
    ∧ (OpenApiSqlGenerator.init bd od d fs).1 = fs.mkdirP (od ++ "/" ++ d)
    ∧ (cliMain root .missing services fs).1 = fs
    ∧ (cliMain root .missing services fs).2.2 = 0 := by
  refine ⟨?_, ?_, ?_, rfl, rfl⟩
  · simp [OpenApiSqlGenerator.init, hd]
  · simp only [OpenApiSqlGenerator.init, FileWriter.init, FS.mkdirP]
    rw [if_pos hd]
    split <;> rfl
  · simp only [OpenApiSqlGenerator.init, FileWriter.init]
    rw [if_pos hd]

/-- C2 witness: with dialect `db2` construction fails yet no file content
changes (the files map is untouched). -/
theorem C2_witness :
    ((OpenApiSqlGenerator.init "build/smithy" "sql" "db2" FS.empty).1).files
      = FS.empty.files :=
  (C2_amended_preflight "build/smithy" "sql" "db2" "root" FS.empty []
    (by decide)).2.1

/-- C6 counterexample: with the configuration file missing, the CLI entry point
prints the error line but exits with status 0 (plain `return`, no `sys.exit`),
contradicting the claim that every fatal error yields a non-zero exit. -/
theorem C6_counterexample :
    (cliMain "/repo" .missing [] FS.empty).2.2 = 0
    ∧ (cliMain "/repo" .missing [] FS.empty).2.1
        = ["❌ Configuration file not found: /repo/libs/config/params.json"] := by
  exact ⟨rfl, rfl⟩

/-- C6 (amended): a missing configuration file prints an error message but the
process exits with status 0; the exit status is non-zero (1) exactly when an
exception escapes to the top-level handler — an unparseable configuration file
or an unsupported configured dialect; a parseable configuration with a
supported dialect exits 0. -/
theorem C6_amended_exit_codes (root : String) (cfg : ConfigState)
    (services : List ServiceFile) (fs : FS) :
    (cfg = .missing → (cliMain root cfg services fs).2.2 = 0)
    ∧ (cfg = .malformed → (cliMain root cfg services fs).2.2 = 1)
    ∧ (∀ projects, cfg = .parsed projects →
        get_database_dialect projects ∉ supported_dialects →
        (cliMain root cfg services fs).2.2 = 1)
    ∧ (∀ projects, cfg = .parsed projects →
        get_database_dialect projects ∈ supported_dialects →
        (cliMain root cfg services fs).2.2 = 0) := by
  refine ⟨fun h => by rw [h]; rfl, fun h => by rw [h]; rfl, ?_, ?_⟩
  · rintro projects rfl hd
    simp [cliMain, OpenApiSqlGenerator.init, FileWriter.init, hd]
  · rintro projects rfl hd
    simp [cliMain, OpenApiSqlGenerator.init, FileWriter.init, hd,
      OpenApiSqlGenerator.generate_all]

/-- C6 witness: a run whose configuration names the unsupported dialect `db2`
exits 1, and a run with a missing configuration file exits 0. -/
theorem C6_witness :
    (cliMain "/repo" (.parsed [some "db2"]) [] FS.empty).2.2 = 1
    ∧ (cliMain "/repo" .missing [] FS.empty).2.2 = 0 :=
  ⟨(C6_amended_exit_codes "/repo" (.parsed [some "db2"]) [] FS.empty).2.2.1
      [some "db2"] rfl (by decide),
    (C6_amended_exit_codes "/repo" .missing [] FS.empty).1 rfl⟩

/-- C7: for a `FileWriter` constructed for `(output_dir, dialect)`,
`write_sql_file` returns the path `<output_dir>/<dialect>/<service_name>.sql`
and stores there exactly the two header lines, the two disclaimer lines, a
blank line, and the statements joined with a blank-line separator. -/
theorem C7_write_sql_file_content (output_dir dialect service_name : String)
    (stmts : List String) (fs0 : FS) (_hne : stmts ≠ []) :
    ((FileWriter.init output_dir dialect fs0).2.write_sql_file service_name stmts
        (FileWriter.init output_dir dialect fs0).1).2
      = output_dir ++ "/" ++ dialect ++ "/" ++ service_name ++ ".sql"
    ∧ ((FileWriter.init output_dir dialect fs0).2.write_sql_file service_name stmts
        (FileWriter.init output_dir dialect fs0).1).1.files
        (output_dir ++ "/" ++ dialect ++ "/" ++ service_name ++ ".sql")
      = some ("-- SQL DDL for " ++ service_name ++ "\n"
          ++ "-- Database: " ++ dialect.toUpper ++ "\n"
          ++ "-- Generated automatically from OpenAPI specification" ++ "\n"
          ++ "-- Do not edit manually" ++ "\n"
          ++ "\n"
          ++ String.intercalate "\n\n" stmts) := by
  have hpath :
      ((output_dir ++ "/" ++ dialect) ++ "/" ++ (service_name ++ ".sql"))
        = output_dir ++ "/" ++ dialect ++ "/" ++ service_name ++ ".sql" := by
    simp only [String.append_assoc]
  have hcontent :
      sqlHeader service_name dialect ++ String.intercalate "\n\n" stmts
        = "-- SQL DDL for " ++ service_name ++ "\n"
          ++ "-- Database: " ++ dialect.toUpper ++ "\n"
          ++ "-- Generated automatically from OpenAPI specification" ++ "\n"
          ++ "-- Do not edit manually" ++ "\n"
          ++ "\n"
          ++ String.intercalate "\n\n" stmts := by
    apply String.ext
    simp only [sqlHeader, String.data_append, List.append_assoc]
    rfl
  constructor
  · simp only [FileWriter.init, FileWriter.write_sql_file]
    exact hpath
  · simp only [FileWriter.init, FileWriter.write_sql_file, FS.writeFile]
    rw [if_pos hpath.symm, hcontent]

/-- C7 witness: the content/path theorem applied to a concrete non-empty
statement list. -/
theorem C7_witness :
    (["CREATE TABLE movies (id NUMBER(10))"] ≠ ([] : List String))
    ∧ ((FileWriter.init "sql" "oracle" FS.empty).2.write_sql_file "movies"
        ["CREATE TABLE movies (id NUMBER(10))"]
        (FileWriter.init "sql" "oracle" FS.empty).1).2
      = "sql" ++ "/" ++ "oracle" ++ "/" ++ "movies" ++ ".sql" :=
  ⟨by decide,
    (C7_write_sql_file_content "sql" "oracle" "movies"
      ["CREATE TABLE movies (id NUMBER(10))"] FS.empty (by decide)).1⟩

/-- The write a single service iteration performs, read off from the service
list alone (later services win): used to show a batch run's effect on the file
map is independent of the starting filesystem. -/
def serviceWrite (fw : FileWriter) (s : ServiceFile) (q : String) :
    Option String :=
  match s.outcome with
  | .statements stmts =>
    if stmts.isEmpty then none
    else if q = fw.output_dir ++ "/" ++ (s.service_name ++ ".sql") then
      some (sqlHeader s.service_name fw.dialect
        ++ String.intercalate "\n\n" stmts)
    else none
  | _ => none

/-- The combined write-effect of a batch on path `q`, later services
overriding earlier ones. -/
def batchWrites (fw : FileWriter) (services : List ServiceFile) (q : String) :
    Option String :=
  match services with
  | [] => none
  | s :: rest =>
    match batchWrites fw rest q with
    | some c => some c
    | none => serviceWrite fw s q

theorem processService_files (fw : FileWriter) (s : ServiceFile) (fs : FS)
    (q : String) :
    ((processService fw s fs).1).files q
      = match serviceWrite fw s q with
        | some c => some c
        | none => fs.files q := by
  cases s with
  | mk name outcome =>
    cases outcome with
    | failure e => rfl
    | noSchemas => rfl
    | statements stmts =>
      simp only [processService, serviceWrite]
      split
      · rfl
      · simp only [FileWriter.write_sql_file, FS.writeFile]
        split <;> rfl

theorem processAll_files (fw : FileWriter) (services : List ServiceFile)
    (fs : FS) (q : String) :
    ((processAll fw services fs).1).files q
      = match batchWrites fw services q with
        | some c => some c
        | none => fs.files q := by
  induction services generalizing fs with
  | nil => rfl
  | cons s rest ih =>
    simp only [processAll, batchWrites]
    rw [ih, processService_files]
    cases batchWrites fw rest q <;> cases serviceWrite fw s q <;> rfl

theorem processService_dirs (fw : FileWriter) (s : ServiceFile) (fs : FS) :
    ((processService fw s fs).1).dirs = fs.dirs := by
  cases s with
  | mk name outcome =>
    cases outcome with
    | failure e => rfl
    | noSchemas => rfl
    | statements stmts =>
      simp only [processService]
      split
      · rfl
      · rfl

theorem processAll_dirs (fw : FileWriter) (services : List ServiceFile)
    (fs : FS) : ((processAll fw services fs).1).dirs = fs.dirs := by
  induction services generalizing fs with
  | nil => rfl
  | cons s rest ih =>
    simp only [processAll]
    rw [ih, processService_dirs]

/-- C8: regeneration is idempotent.  The content `write_sql_file` stores at the
returned path is a pure function of the service name, the statements and the
writer's dialect/output directory — independent of the previous filesystem —
any file already at that path is unconditionally overwritten, and writing a
second time (or re-running a whole batch of services a second time) leaves the
filesystem byte-identical to the first run's result. -/
theorem C8_idempotent_overwrite (fw : FileWriter) (service_name : String)
    (stmts : List String) (fs fs' : FS) (services : List ServiceFile) :
    ((fw.write_sql_file service_name stmts fs).1).files
        ((fw.write_sql_file service_name stmts fs).2)
      = some (sqlHeader service_name fw.dialect
          ++ String.intercalate "\n\n" stmts)
    ∧ ((fw.write_sql_file service_name stmts fs).1).files
        ((fw.write_sql_file service_name stmts fs).2)
      = ((fw.write_sql_file service_name stmts fs').1).files
        ((fw.write_sql_file service_name stmts fs').2)
    ∧ (fw.write_sql_file service_name stmts
        ((fw.write_sql_file service_name stmts fs).1)).1
      = (fw.write_sql_file service_name stmts fs).1
    ∧ (processAll fw services ((processAll fw services fs).1)).1
      = (processAll fw services fs).1 := by
  refine ⟨?_, ?_, ?_, ?_⟩
  · simp [FileWriter.write_sql_file, FS.writeFile]
  · simp [FileWriter.write_sql_file, FS.writeFile]
  · apply FS.ext
    · rfl
    · funext q
      simp only [FileWriter.write_sql_file, FS.writeFile]
      split <;> rfl
  · apply FS.ext
    · rw [processAll_dirs, processAll_dirs]
    · funext q
      rw [processAll_files, processAll_files]
      cases batchWrites fw services q <;> rfl

/-- C3: `generate_all` is failure-isolating — for every discovered service the
`Processing <name>...` line is printed (so a failure earlier in the batch never
prevents a later service from being processed), every failing service gets the
`Error processing <name>: <detail>` line, and the batch always reaches the
final completion line. -/
theorem C3_per_service_isolation (g : OpenApiSqlGenerator)
    (services : List ServiceFile) (fs : FS) (s : ServiceFile)
    (hs : s ∈ services) :
    ("Processing " ++ s.service_name ++ "...")
        ∈ (g.generate_all services fs).2
    ∧ (∀ e, s.outcome = .failure e →
        ("  Error processing " ++ s.service_name ++ ": " ++ e)
          ∈ (g.generate_all services fs).2)
    ∧ "SQL generation completed!" ∈ (g.generate_all services fs).2 := by
  have hne : ¬ services.isEmpty := by
    cases services with
    | nil => cases hs
    | cons a l => simp
  have key : ∀ (l : List ServiceFile) (fs0 : FS), s ∈ l →
      ("Processing " ++ s.service_name ++ "...")
          ∈ (processAll g.file_writer l fs0).2
      ∧ (∀ e, s.outcome = .failure e →
          ("  Error processing " ++ s.service_name ++ ": " ++ e)
            ∈ (processAll g.file_writer l fs0).2) := by
    intro l
    induction l with
    | nil => intro fs0 h; cases h
    | cons a rest ih =>
      intro fs0 h
      rcases List.mem_cons.1 h with rfl | h2
      · constructor
        · simp only [processAll]
          apply List.mem_append_left
          cases houtcome : s.outcome <;> simp [processService, houtcome]
          split <;> simp
        · intro e he
          simp only [processAll]
          apply List.mem_append_left
          simp [processService, he]
      · constructor
        · simp only [processAll]
          exact List.mem_append_right _ ((ih _ h2).1)
        · intro e he
          simp only [processAll]
          exact List.mem_append_right _ ((ih _ h2).2 e he)
  have hk := key services fs hs
  simp only [OpenApiSqlGenerator.generate_all, if_neg hne]
  refine ⟨?_, ?_, ?_⟩
  · exact List.mem_cons_of_mem _ (List.mem_append_left _ hk.1)
  · intro e he
    exact List.mem_cons_of_mem _ (List.mem_append_left _ (hk.2 e he))
  · exact List.mem_cons_of_mem _ (List.mem_append_right _ (by simp))

/-- C3 witness: in a two-service batch whose first service fails, the second
service is still processed and the failure is logged with name and detail. -/
theorem C3_witness :
    ("Processing svc2...")
        ∈ ((⟨⟨"build"⟩, ⟨"sql/oracle", "oracle"⟩, "oracle"⟩ :
            OpenApiSqlGenerator).generate_all
            [⟨"svc1", .failure "boom"⟩, ⟨"svc2", .statements ["st"]⟩]
            FS.empty).2
    ∧ ("  Error processing svc1: boom")
        ∈ ((⟨⟨"build"⟩, ⟨"sql/oracle", "oracle"⟩, "oracle"⟩ :
            OpenApiSqlGenerator).generate_all
            [⟨"svc1", .failure "boom"⟩, ⟨"svc2", .statements ["st"]⟩]
            FS.empty).2 :=
  ⟨by
      have h := (C3_per_service_isolation
        ⟨⟨"build"⟩, ⟨"sql/oracle", "oracle"⟩, "oracle"⟩
        [⟨"svc1", .failure "boom"⟩, ⟨"svc2", .statements ["st"]⟩]
        FS.empty ⟨"svc2", .statements ["st"]⟩ (by simp)).1
      simpa using h,
    by
      have h := (C3_per_service_isolation
        ⟨⟨"build"⟩, ⟨"sql/oracle", "oracle"⟩, "oracle"⟩
        [⟨"svc1", .failure "boom"⟩, ⟨"svc2", .statements ["st"]⟩]
        FS.empty ⟨"svc1", .failure "boom"⟩ (by simp)).2.1 "boom" rfl
      simpa using h⟩

end OpenApiSql
